import Mathlib

/-!
Verification of the data-driven style mapping and join-table construction of
the mapboxgl-jupyter repository (src/mapboxgl/layers.py, src/mapboxgl/viz.py).

Scalar property values carried by features are numbers or strings; numbers are
modelled as rationals. The resolvers `color_map` / `numeric_map` live in
mapboxgl/utils.py, which is not part of the sources given here, so they are
modelled from the specification; the join-table loops, the layer constructors
and the template check are translated from src/mapboxgl/layers.py and
src/mapboxgl/viz.py directly.
-/

/-- A scalar property value of a feature: a number or a string. -/
inductive Value where
  | num (q : ℚ)
  | str (s : String)
deriving DecidableEq

/-- A feature row: a mapping from property names to scalar values,
modelling a Python dict of a GeoJSON feature's properties. -/
def Feature := List (String × Value)

instance : DecidableEq Feature := by unfold Feature; infer_instance

/-- Python exceptions raised by the embedded code. `keyError k` models the
KeyError raised by `row[k]` when the key is absent; the spec names these
MissingPropertyError (lookup property) and MissingJoinKeyError (join key). -/
inductive PyError where
  | keyError (k : String)
deriving DecidableEq

/-- Dict lookup returning `none` when the key is absent. -/
def Feature.getItem? (f : Feature) (k : String) : Option Value :=
  (List.find? (fun p => p.1 == k) f).map (fun p => p.2)

/-- Python subscript `row[k]`: the value, or a raised KeyError. -/
def Feature.getItem (f : Feature) (k : String) : Except PyError Value :=
  match f.getItem? k with
  | some v => Except.ok v
  | none => Except.error (PyError.keyError k)

/-- Total lookup with a fixed throwaway default, used only to state results
about features already known to contain the key. -/
def Feature.getD (f : Feature) (k : String) : Value :=
  (f.getItem? k).getD (Value.num 0)

/-- The `*_function_type` of a layer: resolution mode of the stop table. -/
inductive FunctionType where
  | interpolate
  | matchMode
  | categorical
deriving DecidableEq

/-- Modelled from the spec: the match / categorical branch of the resolvers in
mapboxgl/utils.py (absent from src). The stop table is an exact-match table
keyed by discrete value: return the output whose key equals the value, and the
default when no key matches. -/
def match_lookup {α β : Type} [DecidableEq α] (v : α) : List (α × β) → β → β
  | [], d => d
  | (k, o) :: rest, d => if k = v then o else match_lookup v rest d

/-- Modelled from the spec: the scan of the interpolate branch after the first
stop. The accumulator holds the last stop seen with threshold at or below the
value (or the first stop). When the next threshold exceeds the value, linearly
interpolate between the two bracketing stops; past the last stop, return the
last output. -/
def interpolate_tail (v : ℚ) : ℚ × ℚ → List (ℚ × ℚ) → ℚ
  | (_, o0), [] => o0
  | (t0, o0), (t1, o1) :: rest =>
    if v < t1 then o0 + (o1 - o0) * (v - t0) / (t1 - t0)
    else interpolate_tail v (t1, o1) rest

/-- Modelled from the spec: resolve_numeric (numeric_map of mapboxgl/utils.py,
absent from src). Interpolate mode is a piecewise-linear function of the value
over an ascending stop table: below the first threshold the first output, at or
above the last threshold the last output, otherwise linear interpolation
between the bracketing stops; an empty table gives the default. Match and
categorical modes are exact lookup. A missing value gives the default. -/
def resolve_numeric (value : Option ℚ) (stops : List (ℚ × ℚ)) (d : ℚ)
    (ft : FunctionType) : ℚ :=
  match value with
  | none => d
  | some v =>
    match ft with
    | FunctionType.interpolate =>
      match stops with
      | [] => d
      | s0 :: rest => if v < s0.1 then s0.2 else interpolate_tail v s0 rest
    | FunctionType.matchMode => match_lookup v stops d
    | FunctionType.categorical => match_lookup v stops d

/-- Modelled from the spec: the match / categorical mode of resolve_color
(color_map of mapboxgl/utils.py, absent from src) over discrete scalar keys:
exact lookup in the stop table, default when no key matches. -/
def resolve_categorical (v : Value) (stops : List (Value × Value)) (d : Value) : Value :=
  match_lookup v stops d

/-- The layer data attribute: a list of feature dicts, or a filename / URL
string still to be parsed by geojson_to_dict_list. -/
def LayerData := List Feature ⊕ String

instance : DecidableEq LayerData := by unfold LayerData; infer_instance

/-- The fields of a VectorMixin layer read by generate_vector_color_map
(src/mapboxgl/layers.py lines 11-28). -/
structure ColorLayerState where
  data : LayerData
  color_property : String
  color_stops : List (Value × Value)
  color_default : Value
  data_join_property : String
deriving DecidableEq

/-- Rebuild a ColorLayerState with the data attribute assigned, the other
fields unchanged (the assignment `self.data = ...`). -/
def ColorLayerState.withData (st : ColorLayerState) (d : LayerData) : ColorLayerState :=
  ⟨d, st.color_property, st.color_stops, st.color_default, st.data_join_property⟩

/-- The fields read by generate_vector_numeric_map (src/mapboxgl/layers.py
lines 30-54), after the dynamic getattr lookups have been resolved:
lookup_property is getattr(self, numeric_property + "_property"),
numeric_stops is getattr(self, numeric_property + "_stops"),
numeric_default is getattr(self, numeric_property + "_default"), and
numeric_function_type is getattr(self, numeric_property + "_function_type"). -/
structure NumericLayerState where
  data : LayerData
  numeric_function_type : FunctionType
  lookup_property : String
  numeric_stops : List (Value × Value)
  numeric_default : Value
  data_join_property : String
deriving DecidableEq

/-- Rebuild a NumericLayerState with the data attribute assigned, the other
fields unchanged. -/
def NumericLayerState.withData (st : NumericLayerState) (d : LayerData) : NumericLayerState :=
  ⟨d, st.numeric_function_type, st.lookup_property, st.numeric_stops,
    st.numeric_default, st.data_join_property⟩

/-- The statement `if type(self.data) == str: self.data = geojson_to_dict_list(self.data)`
(src/mapboxgl/layers.py lines 16-17 and 43-44). `parse` stands for the external
geojson_to_dict_list (mapboxgl/utils.py, absent from src). -/
def parseIfString (parse : String → List Feature) : LayerData → LayerData
  | Sum.inl rows => Sum.inl rows
  | Sum.inr s => Sum.inl (parse s)

/-- The feature list iterated by `for row in self.data` (after the string case
has been parsed, data is always a list). -/
def LayerData.rows : LayerData → List Feature
  | Sum.inl rows => rows
  | Sum.inr _ => []

/-- One iteration of the join-table loop (src/mapboxgl/layers.py lines 20-26
and 46-52): `row[lookup_prop]` (KeyError when absent), resolve it through the
resolver, `row[join_prop]` (KeyError when absent), and pair the join key with
the resolved value. `resolver` stands for the external color_map / numeric_map
applied to the row's value with the layer's stops and default. -/
def joinRow (resolver : Value → List (Value × Value) → Value → Value)
    (lookup_prop join_prop : String) (stops : List (Value × Value)) (d : Value)
    (row : Feature) : Except PyError (Value × Value) :=
  match row.getItem lookup_prop with
  | Except.error e => Except.error e
  | Except.ok v =>
    match row.getItem join_prop with
    | Except.error e => Except.error e
    | Except.ok k => Except.ok (k, resolver v stops d)

/-- The join-table loop: append one pair per feature in order, aborting the
whole batch at the first raised KeyError (src/mapboxgl/layers.py
lines 13-28 and 32-54). -/
def buildJoinTable (resolver : Value → List (Value × Value) → Value → Value)
    (lookup_prop join_prop : String) (stops : List (Value × Value)) (d : Value) :
    List Feature → Except PyError (List (Value × Value))
  | [] => Except.ok []
  | row :: rest =>
    match joinRow resolver lookup_prop join_prop stops d row with
    | Except.error e => Except.error e
    | Except.ok p =>
      match buildJoinTable resolver lookup_prop join_prop stops d rest with
      | Except.error e => Except.error e
      | Except.ok ps => Except.ok (p :: ps)

/-- VectorMixin.generate_vector_color_map (src/mapboxgl/layers.py lines 11-28):
parse self.data when it is a string (mutating self.data), then build the
[join_key, color] table. Returns the layer state after the call together with
the returned table or the raised exception. `color_map` stands for the external
resolver of mapboxgl/utils.py (absent from src). -/
def generate_vector_color_map
    (color_map : Value → List (Value × Value) → Value → Value)
    (parse : String → List Feature) (st : ColorLayerState) :
    ColorLayerState × Except PyError (List (Value × Value)) :=
  let st1 := st.withData (parseIfString parse st.data)
  (st1, buildJoinTable color_map st1.color_property st1.data_join_property
    st1.color_stops st1.color_default st1.data.rows)

/-- VectorMixin.generate_vector_numeric_map (src/mapboxgl/layers.py
lines 30-54): resolve the per-property fields, parse self.data when it is a
string (mutating self.data), then build the [join_key, value] table.
numeric_function_type is read but only feeds the dead local assignment
`match_width = numeric_stops`, which binds no state and is dropped.
`numeric_map` stands for the external resolver of mapboxgl/utils.py. -/
def generate_vector_numeric_map
    (numeric_map : Value → List (Value × Value) → Value → Value)
    (parse : String → List Feature) (st : NumericLayerState) :
    NumericLayerState × Except PyError (List (Value × Value)) :=
  let st1 := st.withData (parseIfString parse st.data)
  (st1, buildJoinTable numeric_map st1.lookup_property st1.data_join_property
    st1.numeric_stops st1.numeric_default st1.data.rows)

/-- The color_stops branch of HeatmapLayer.__init__ (src/mapboxgl/layers.py
lines 324-326): a truthy (non-empty, non-None) color_stops argument stores the
extra transparent stop [0.00001, 'rgba(0,0,0,0)'] followed by the user stops;
a falsy argument leaves self.color_stops unassigned by this branch, modelled
as `none`. -/
def HeatmapLayer_init_color_stops (color_stops : Option (List (ℚ × String))) :
    Option (List (ℚ × String)) :=
  match color_stops with
  | none => none
  | some cs =>
    if cs.isEmpty then none
    else some ((1 / 100000, "rgba(0,0,0,0)") :: cs)

/-- The error raised by MapViz.__init__ on a secret access token. -/
inductive TokenError where
  | secretToken
deriving DecidableEq

/-- Python str.startswith, evaluated on the strings' character lists. -/
def py_startswith (s pre : String) : Bool :=
  List.isPrefixOf pre.data s.data

/-- The access-token handling of MapViz.__init__ (src/mapboxgl/viz.py
lines 60-66): a None argument falls back to the MAPBOX_ACCESS_TOKEN
environment variable (empty string when unset, modelled by `env_token`); a
token starting with 'sk' raises TokenError before any attribute is assigned;
otherwise the token is stored unchanged. -/
def MapViz_init_access_token (env_token : Option String)
    (access_token : Option String) : Except TokenError String :=
  let tok :=
    match access_token with
    | none =>
      match env_token with
      | some s => s
      | none => ""
    | some t => t
  if py_startswith tok "sk" then Except.error TokenError.secretToken
  else Except.ok tok

/-- VectorMixin.check_vector_template (src/mapboxgl/layers.py lines 56-63).
`vector_url_attr` is `none` when the vector_url attribute is absent, in which
case `getattr(self, 'vector_url')` raises AttributeError after
`self.vector_source = False` has already run; the error carries the
(template, vector_source) pair left behind. Otherwise, when both vector_url
and vector_layer_name are not None, 'layers/' in the template is replaced by
'layers/vector_' and vector_source is set True. -/
def check_vector_template (vector_url_attr : Option (Option String))
    (vector_layer_name : Option String) (template : String) :
    Except (String × Bool) (String × Bool) :=
  match vector_url_attr with
  | none => Except.error (template, false)
  | some vector_url =>
    match vector_url with
    | none => Except.ok (template, false)
    | some _ =>
      match vector_layer_name with
      | none => Except.ok (template, false)
      | some _ => Except.ok (template.replace "layers/" "layers/vector_", true)

/-- The guarded call of check_vector_template in MapLayer.__init__
(src/mapboxgl/layers.py lines 118-122): on any exception the except branch
sets vector_source = False, keeping the template as it was. Returns the
(template, vector_source) pair after construction. -/
def MapLayer_init_vector (vector_url_attr : Option (Option String))
    (vector_layer_name : Option String) (template : String) : String × Bool :=
  match check_vector_template vector_url_attr vector_layer_name template with
  | Except.ok r => r
  | Except.error (tmpl, _) => (tmpl, false)

/-! ### Helper lemmas -/

theorem buildJoinTable_ok (r : Value → List (Value × Value) → Value → Value)
    (lp jp : String) (stops : List (Value × Value)) (d : Value) :
    ∀ fs : List Feature,
      (∀ row ∈ fs, (Feature.getItem? row lp).isSome ∧ (Feature.getItem? row jp).isSome) →
      buildJoinTable r lp jp stops d fs
        = Except.ok (fs.map fun row => (row.getD jp, r (row.getD lp) stops d))
  | [], _ => rfl
  | row :: rest, h => by
    obtain ⟨hl, hj⟩ := h row (List.mem_cons_self row rest)
    obtain ⟨v, hv⟩ := Option.isSome_iff_exists.mp hl
    obtain ⟨k, hk⟩ := Option.isSome_iff_exists.mp hj
    have ih := buildJoinTable_ok r lp jp stops d rest
      (fun q hq => h q (List.mem_cons_of_mem _ hq))
    simp [buildJoinTable, joinRow, Feature.getItem, Feature.getD, hv, hk, ih]

theorem buildJoinTable_error_of_missing
    (r : Value → List (Value × Value) → Value → Value)
    (lp jp : String) (stops : List (Value × Value)) (d : Value) :
    ∀ fs : List Feature,
      (∃ row ∈ fs, Feature.getItem? row lp = none ∨ Feature.getItem? row jp = none) →
      ∃ e, buildJoinTable r lp jp stops d fs = Except.error e := by
  intro fs
  induction fs with
  | nil => rintro ⟨row, hrow, -⟩; cases hrow
  | cons row rest ih =>
    rintro ⟨q, hq, hmiss⟩
    rcases List.mem_cons.mp hq with rfl | hq'
    · rcases hmiss with hl | hj
      · exact ⟨PyError.keyError lp,
          by simp [buildJoinTable, joinRow, Feature.getItem, hl]⟩
      · cases hlp : Feature.getItem? q lp with
        | none => exact ⟨PyError.keyError lp,
            by simp [buildJoinTable, joinRow, Feature.getItem, hlp]⟩
        | some v => exact ⟨PyError.keyError jp,
            by simp [buildJoinTable, joinRow, Feature.getItem, hlp, hj]⟩
    · obtain ⟨e, he⟩ := ih ⟨q, hq', hmiss⟩
      cases hlp : Feature.getItem? row lp with
      | none => exact ⟨PyError.keyError lp,
          by simp [buildJoinTable, joinRow, Feature.getItem, hlp]⟩
      | some v =>
        cases hjp : Feature.getItem? row jp with
        | none => exact ⟨PyError.keyError jp,
            by simp [buildJoinTable, joinRow, Feature.getItem, hlp, hjp]⟩
        | some k => exact ⟨e,
            by simp [buildJoinTable, joinRow, Feature.getItem, hlp, hjp, he]⟩

theorem buildJoinTable_error_join_key
    (r : Value → List (Value × Value) → Value → Value)
    (lp jp : String) (stops : List (Value × Value)) (d : Value) :
    ∀ fs : List Feature,
      (∀ row ∈ fs, (Feature.getItem? row lp).isSome) →
      (∃ row ∈ fs, Feature.getItem? row jp = none) →
      buildJoinTable r lp jp stops d fs = Except.error (PyError.keyError jp) := by
  intro fs
  induction fs with
  | nil => rintro - ⟨row, hrow, -⟩; cases hrow
  | cons row rest ih =>
    rintro hall ⟨q, hq, hmiss⟩
    obtain ⟨v, hv⟩ := Option.isSome_iff_exists.mp (hall row (List.mem_cons_self row rest))
    rcases List.mem_cons.mp hq with rfl | hq'
    · simp [buildJoinTable, joinRow, Feature.getItem, hv, hmiss]
    · cases hjp : Feature.getItem? row jp with
      | none => simp [buildJoinTable, joinRow, Feature.getItem, hv, hjp]
      | some k =>
        have hrest := ih (fun q' hq'' => hall q' (List.mem_cons_of_mem _ hq'')) ⟨q, hq', hmiss⟩
        simp [buildJoinTable, joinRow, Feature.getItem, hv, hjp, hrest]

theorem match_lookup_mem {α β : Type} [DecidableEq α] (v : α) (d : β) :
    ∀ stops : List (α × β), (List.map Prod.fst stops).Nodup →
      ∀ o, (v, o) ∈ stops → match_lookup v stops d = o := by
  intro stops
  induction stops with
  | nil => intro _ o ho; cases ho
  | cons p rest ih =>
    intro hnodup o ho
    obtain ⟨k, o'⟩ := p
    have hnd : k ∉ List.map Prod.fst rest ∧ (List.map Prod.fst rest).Nodup := by
      simpa [List.nodup_cons] using hnodup
    rcases List.mem_cons.mp ho with heq | hmem
    · have h1 : k = v := (congrArg Prod.fst heq).symm
      have h2 : o' = o := (congrArg Prod.snd heq).symm
      simp [match_lookup, h1, h2]
    · have hk : ¬ k = v := by
        intro h1
        apply hnd.1
        rw [h1]
        exact List.mem_map.mpr ⟨(v, o), hmem, rfl⟩
      simp [match_lookup, hk, ih hnd.2 o hmem]

theorem match_lookup_not_mem {α β : Type} [DecidableEq α] (v : α) (d : β) :
    ∀ stops : List (α × β), (∀ p ∈ stops, p.1 ≠ v) → match_lookup v stops d = d := by
  intro stops
  induction stops with
  | nil => intro _; rfl
  | cons p rest ih =>
    intro h
    obtain ⟨k, o⟩ := p
    have hk : k ≠ v := h (k, o) (List.mem_cons_self _ _)
    simp [match_lookup, hk, ih (fun q hq => h q (List.mem_cons_of_mem _ hq))]

theorem interpolate_tail_last (v : ℚ) :
    ∀ (rest : List (ℚ × ℚ)) (t0 o0 tl ol : ℚ),
      List.Sorted (· ≤ ·) (List.map Prod.fst ((t0, o0) :: rest)) →
      List.getLast? ((t0, o0) :: rest) = some (tl, ol) → tl ≤ v →
      interpolate_tail v (t0, o0) rest = ol
  | [], t0, o0, tl, ol, _, hlast, _ => by
    have h : (t0, o0) = (tl, ol) := by simpa using hlast
    have h2 : o0 = ol := congrArg Prod.snd h
    simp [interpolate_tail, h2]
  | (t1, o1) :: rest', t0, o0, tl, ol, hsorted, hlast, hle => by
    have hsorted' : List.Sorted (· ≤ ·) (List.map Prod.fst ((t1, o1) :: rest')) := by
      simp only [List.map_cons] at hsorted ⊢
      exact (List.sorted_cons.mp hsorted).2
    have hlast' : List.getLast? ((t1, o1) :: rest') = some (tl, ol) := by
      rwa [List.getLast?_cons_cons] at hlast
    have hmem : (tl, ol) ∈ (t1, o1) :: rest' := by
      obtain ⟨hne, heq⟩ := List.mem_getLast?_eq_getLast (l := (t1, o1) :: rest')
        (x := (tl, ol)) (by rw [hlast']; rfl)
      exact heq ▸ List.getLast_mem hne
    have ht1 : t1 ≤ tl := by
      rcases List.mem_cons.mp hmem with heq | hmem'
      · exact le_of_eq (congrArg Prod.fst heq).symm
      · have hs : ∀ b ∈ List.map Prod.fst rest', t1 ≤ b := by
          have h' := hsorted'
          simp only [List.map_cons] at h'
          exact fun b hb => (List.sorted_cons.mp h').1 b hb
        exact hs tl (List.mem_map.mpr ⟨(tl, ol), hmem', rfl⟩)
    have hnl : ¬ v < t1 := not_lt.mpr (le_trans ht1 hle)
    simp only [interpolate_tail, if_neg hnl]
    exact interpolate_tail_last v rest' t1 o1 tl ol hsorted' hlast' hle

/-! ### Concrete inputs used by witnesses and counterexamples -/

def c1Features : List Feature :=
  [[("id", Value.num 1), ("pop", Value.num 50)],
   [("id", Value.num 1), ("pop", Value.num 150)]]

def c1ColorState : ColorLayerState :=
  ⟨Sum.inl c1Features, "pop",
   [(Value.num 0, Value.str "small"), (Value.num 100, Value.str "large")],
   Value.str "grey", "id"⟩

def c1NumFeatures : List Feature :=
  [[("id", Value.num 7), ("height", Value.num 3)]]

def c1NumericState : NumericLayerState :=
  ⟨Sum.inl c1NumFeatures, FunctionType.matchMode, "height",
   [(Value.num 3, Value.num 30)], Value.num 0, "id"⟩

def c2Feature : Feature := [("id", Value.num 1)]

def c2State : ColorLayerState :=
  ⟨Sum.inl [c2Feature], "pop",
   [(Value.num 0, Value.str "small"), (Value.num 100, Value.str "large")],
   Value.str "grey", "id"⟩

def c3State : ColorLayerState :=
  ⟨Sum.inl [[("pop", Value.num 5)]], "pop", [], Value.str "grey", "id"⟩

/-! ### Claim theorems -/

/-- C1: when every feature contains both the configured lookup property and
the join-key property, generate_vector_color_map and
generate_vector_numeric_map return exactly one [join_key, resolved_value]
pair per input feature, in input order — the table is the pointwise image of
the feature list — and perform no deduplication of repeated join keys. -/
theorem join_table_one_pair_per_feature_in_order
    (color_map numeric_map : Value → List (Value × Value) → Value → Value)
    (parse : String → List Feature)
    (cst : ColorLayerState) (nst : NumericLayerState)
    (cfs nfs : List Feature)
    (hc : cst.data = Sum.inl cfs)
    (hcall : ∀ row ∈ cfs, (Feature.getItem? row cst.color_property).isSome ∧
        (Feature.getItem? row cst.data_join_property).isSome)
    (hn : nst.data = Sum.inl nfs)
    (hnall : ∀ row ∈ nfs, (Feature.getItem? row nst.lookup_property).isSome ∧
        (Feature.getItem? row nst.data_join_property).isSome) :
    (generate_vector_color_map color_map parse cst).2
      = Except.ok (cfs.map fun row =>
          (row.getD cst.data_join_property,
           color_map (row.getD cst.color_property) cst.color_stops cst.color_default))
    ∧ (generate_vector_numeric_map numeric_map parse nst).2
      = Except.ok (nfs.map fun row =>
          (row.getD nst.data_join_property,
           numeric_map (row.getD nst.lookup_property) nst.numeric_stops
             nst.numeric_default)) := by
  constructor
  · have hb := buildJoinTable_ok color_map cst.color_property cst.data_join_property
      cst.color_stops cst.color_default cfs hcall
    simp [generate_vector_color_map, ColorLayerState.withData, parseIfString,
      LayerData.rows, hc, hb]
  · have hb := buildJoinTable_ok numeric_map nst.lookup_property nst.data_join_property
      nst.numeric_stops nst.numeric_default nfs hnall
    simp [generate_vector_numeric_map, NumericLayerState.withData, parseIfString,
      LayerData.rows, hn, hb]

theorem join_table_one_pair_per_feature_in_order_witness :
    (generate_vector_color_map (fun v stops d => resolve_categorical v stops d)
        (fun _ => []) c1ColorState).2
      = Except.ok (c1Features.map fun row =>
          (row.getD "id",
           resolve_categorical (row.getD "pop") c1ColorState.color_stops
             c1ColorState.color_default))
    ∧ (generate_vector_numeric_map (fun v stops d => resolve_categorical v stops d)
        (fun _ => []) c1NumericState).2
      = Except.ok (c1NumFeatures.map fun row =>
          (row.getD "id",
           resolve_categorical (row.getD "height") c1NumericState.numeric_stops
             c1NumericState.numeric_default)) :=
  join_table_one_pair_per_feature_in_order _ _ _ c1ColorState c1NumericState
    c1Features c1NumFeatures rfl (by decide) rfl (by decide)

/-- C2 counterexample: a feature carrying the join key "id" but lacking the
lookup property "pop" makes generate_vector_color_map raise KeyError("pop");
the call does not return the default-colored pair for that feature. -/
theorem missing_lookup_property_counterexample :
    (generate_vector_color_map (fun v stops d => resolve_categorical v stops d)
        (fun _ => []) c2State).2 = Except.error (PyError.keyError "pop")
    ∧ (generate_vector_color_map (fun v stops d => resolve_categorical v stops d)
        (fun _ => []) c2State).2 ≠ Except.ok [(Value.num 1, Value.str "grey")] := by
  refine ⟨rfl, ?_⟩
  intro hcontra
  exact Except.noConfusion hcontra

/-- C2 amended: a feature lacking the configured lookup property does not
resolve to the configured default; `row[lookup_property]` raises KeyError and
the whole batch aborts with a raised error, exactly as for a missing join-key
property. -/
theorem missing_lookup_property_aborts
    (color_map : Value → List (Value × Value) → Value → Value)
    (parse : String → List Feature) (st : ColorLayerState) (fs : List Feature)
    (h : st.data = Sum.inl fs)
    (hmiss : ∃ row ∈ fs, Feature.getItem? row st.color_property = none) :
    ∃ e, (generate_vector_color_map color_map parse st).2 = Except.error e := by
  obtain ⟨e, he⟩ := buildJoinTable_error_of_missing color_map st.color_property
    st.data_join_property st.color_stops st.color_default fs
    (by obtain ⟨row, hrow, hm⟩ := hmiss; exact ⟨row, hrow, Or.inl hm⟩)
  exact ⟨e, by simp [generate_vector_color_map, ColorLayerState.withData,
    parseIfString, LayerData.rows, h, he]⟩

theorem missing_lookup_property_aborts_witness :
    ∃ e, (generate_vector_color_map (fun v stops d => resolve_categorical v stops d)
        (fun _ => []) c2State).2 = Except.error e :=
  missing_lookup_property_aborts _ _ c2State [c2Feature] rfl
    ⟨c2Feature, by decide, by decide⟩

/-- C3: when some feature lacks the join-key property, the join-table build
raises an error aborting the whole batch — the result carries no list, not
even a partial one — and when all features do carry the lookup property, the
raised error is exactly KeyError on the join-key property (the spec's
MissingJoinKeyError). -/
theorem missing_join_key_aborts_batch
    (color_map : Value → List (Value × Value) → Value → Value)
    (parse : String → List Feature) (st : ColorLayerState) (fs : List Feature)
    (h : st.data = Sum.inl fs)
    (hmiss : ∃ row ∈ fs, Feature.getItem? row st.data_join_property = none) :
    (∃ e, (generate_vector_color_map color_map parse st).2 = Except.error e)
    ∧ ((∀ row ∈ fs, (Feature.getItem? row st.color_property).isSome) →
        (generate_vector_color_map color_map parse st).2
          = Except.error (PyError.keyError st.data_join_property)) := by
  constructor
  · obtain ⟨e, he⟩ := buildJoinTable_error_of_missing color_map st.color_property
      st.data_join_property st.color_stops st.color_default fs
      (by obtain ⟨row, hrow, hm⟩ := hmiss; exact ⟨row, hrow, Or.inr hm⟩)
    exact ⟨e, by simp [generate_vector_color_map, ColorLayerState.withData,
      parseIfString, LayerData.rows, h, he]⟩
  · intro hall
    have he := buildJoinTable_error_join_key color_map st.color_property
      st.data_join_property st.color_stops st.color_default fs hall hmiss
    simp [generate_vector_color_map, ColorLayerState.withData, parseIfString,
      LayerData.rows, h, he]

theorem missing_join_key_aborts_batch_witness :
    (generate_vector_color_map (fun v stops d => resolve_categorical v stops d)
        (fun _ => []) c3State).2 = Except.error (PyError.keyError "id") :=
  (missing_join_key_aborts_batch _ _ c3State [[("pop", Value.num 5)]] rfl
      ⟨[("pop", Value.num 5)], by decide, by decide⟩).2 (by decide)

/-- C4: in interpolate mode over a non-empty ascending stop table,
resolve_numeric returns the first stop's output exactly for every value
strictly below the first threshold, the last stop's output exactly for every
value at or above the last threshold, and the default for every value when
the stop table is empty. -/
theorem resolve_numeric_interpolate_boundary
    (v d : ℚ) (stops : List (ℚ × ℚ))
    (hsorted : List.Sorted (· ≤ ·) (List.map Prod.fst stops)) :
    (∀ t0 o0 rest, stops = (t0, o0) :: rest → v < t0 →
        resolve_numeric (some v) stops d FunctionType.interpolate = o0)
    ∧ (∀ tl ol, List.getLast? stops = some (tl, ol) → tl ≤ v →
        resolve_numeric (some v) stops d FunctionType.interpolate = ol)
    ∧ resolve_numeric (some v) [] d FunctionType.interpolate = d := by
  refine ⟨?_, ?_, rfl⟩
  · rintro t0 o0 rest rfl hlt
    simp [resolve_numeric, hlt]
  · intro tl ol hlast hle
    match stops, hsorted, hlast with
    | (t0, o0) :: rest, hsorted, hlast =>
      have hmem : (tl, ol) ∈ (t0, o0) :: rest := by
        obtain ⟨hne, heq⟩ := List.mem_getLast?_eq_getLast (l := (t0, o0) :: rest)
          (x := (tl, ol)) (by rw [hlast]; rfl)
        exact heq ▸ List.getLast_mem hne
      have ht0 : t0 ≤ tl := by
        rcases List.mem_cons.mp hmem with heq | hmem'
        · exact le_of_eq (congrArg Prod.fst heq).symm
        · have h' := hsorted
          simp only [List.map_cons] at h'
          exact (List.sorted_cons.mp h').1 tl (List.mem_map.mpr ⟨(tl, ol), hmem', rfl⟩)
      have hnl : ¬ v < t0 := not_lt.mpr (le_trans ht0 hle)
      simp only [resolve_numeric, if_neg hnl]
      exact interpolate_tail_last v rest t0 o0 tl ol hsorted hlast hle

theorem resolve_numeric_interpolate_boundary_witness :
    resolve_numeric (some 20) [((0 : ℚ), 1), (10, 100)] 7 FunctionType.interpolate = 100
    ∧ resolve_numeric (some (-5)) [((0 : ℚ), 1), (10, 100)] 7 FunctionType.interpolate = 1
    ∧ resolve_numeric (some 20) [] 7 FunctionType.interpolate = 7 := by
  refine ⟨?_, ?_, ?_⟩
  · exact (resolve_numeric_interpolate_boundary 20 7 [((0 : ℚ), 1), (10, 100)]
      (by decide)).2.1 10 100 (by decide) (by decide)
  · exact (resolve_numeric_interpolate_boundary (-5) 7 [((0 : ℚ), 1), (10, 100)]
      (by decide)).1 0 1 [(10, 100)] rfl (by decide)
  · exact (resolve_numeric_interpolate_boundary 20 7 [] (by decide)).2.2

/-- C5: in match / categorical mode resolution is an exact-key lookup: over a
stop table with pairwise-distinct keys, a value equal to some stop's key
resolves to that stop's output, and a value equal to no stop's key resolves
to the default. -/
theorem match_mode_exact_lookup (v d : Value) (stops : List (Value × Value)) :
    ((List.map Prod.fst stops).Nodup →
        ∀ o, (v, o) ∈ stops → resolve_categorical v stops d = o)
    ∧ ((∀ p ∈ stops, p.1 ≠ v) → resolve_categorical v stops d = d) := by
  constructor
  · intro hnodup o ho
    exact match_lookup_mem v d stops hnodup o ho
  · intro hno
    exact match_lookup_not_mem v d stops hno

theorem match_mode_exact_lookup_witness :
    resolve_categorical (Value.str "c")
      [(Value.str "a", Value.str "red"), (Value.str "b", Value.str "blue")]
      (Value.str "grey") = Value.str "grey"
    ∧ resolve_categorical (Value.str "a")
      [(Value.str "a", Value.str "red"), (Value.str "b", Value.str "blue")]
      (Value.str "grey") = Value.str "red" := by
  constructor
  · exact (match_mode_exact_lookup (Value.str "c") (Value.str "grey")
      [(Value.str "a", Value.str "red"), (Value.str "b", Value.str "blue")]).2
      (by decide)
  · exact (match_mode_exact_lookup (Value.str "a") (Value.str "grey")
      [(Value.str "a", Value.str "red"), (Value.str "b", Value.str "blue")]).1
      (by decide) (Value.str "red") (by decide)

/-- C6: when the layer's data is already a feature sequence, the join-table
builders have no side effect beyond reading their input: the layer state —
its feature list and all other fields — is unchanged after the call. -/
theorem generate_maps_no_mutation
    (color_map numeric_map : Value → List (Value × Value) → Value → Value)
    (parse : String → List Feature)
    (cst : ColorLayerState) (nst : NumericLayerState)
    (cfs nfs : List Feature)
    (hc : cst.data = Sum.inl cfs) (hn : nst.data = Sum.inl nfs) :
    (generate_vector_color_map color_map parse cst).1 = cst
    ∧ (generate_vector_numeric_map numeric_map parse nst).1 = nst := by
  constructor
  · obtain ⟨d, p1, p2, p3, p4⟩ := cst
    simp only at hc
    subst hc
    rfl
  · obtain ⟨d, p1, p2, p3, p4, p5⟩ := nst
    simp only at hn
    subst hn
    rfl

theorem generate_maps_no_mutation_witness :
    (generate_vector_color_map (fun v stops d => resolve_categorical v stops d)
        (fun _ => []) c1ColorState).1 = c1ColorState
    ∧ (generate_vector_numeric_map (fun v stops d => resolve_categorical v stops d)
        (fun _ => []) c1NumericState).1 = c1NumericState :=
  generate_maps_no_mutation _ _ _ c1ColorState c1NumericState
    c1Features c1NumFeatures rfl rfl

/-- C7: style resolution and join-table construction are deterministic and
stateless between calls: resolve_numeric is a pure function, and running a
join-table builder a second time, starting from the layer state left behind by
the first call, returns the same table and leaves the state fixed. -/
theorem generate_maps_stateless_deterministic
    (color_map numeric_map : Value → List (Value × Value) → Value → Value)
    (parse : String → List Feature)
    (cst : ColorLayerState) (nst : NumericLayerState) :
    ((generate_vector_color_map color_map parse
        (generate_vector_color_map color_map parse cst).1).2
      = (generate_vector_color_map color_map parse cst).2)
    ∧ ((generate_vector_color_map color_map parse
        (generate_vector_color_map color_map parse cst).1).1
      = (generate_vector_color_map color_map parse cst).1)
    ∧ ((generate_vector_numeric_map numeric_map parse
        (generate_vector_numeric_map numeric_map parse nst).1).2
      = (generate_vector_numeric_map numeric_map parse nst).2)
    ∧ ((generate_vector_numeric_map numeric_map parse
        (generate_vector_numeric_map numeric_map parse nst).1).1
      = (generate_vector_numeric_map numeric_map parse nst).1)
    ∧ (∀ (v : Option ℚ) (stops : List (ℚ × ℚ)) (dq : ℚ) (ft : FunctionType),
        resolve_numeric v stops dq ft = resolve_numeric v stops dq ft) := by
  obtain ⟨d, p1, p2, p3, p4⟩ := cst
  obtain ⟨e, q1, q2, q3, q4, q5⟩ := nst
  refine ⟨?_, ?_, ?_, ?_, fun _ _ _ _ => rfl⟩
  all_goals cases d <;> cases e <;> rfl

/-- C8: a HeatmapLayer built with a truthy (non-empty) color_stops argument
stores the extra transparent stop [0.00001, 'rgba(0,0,0,0)'] followed by the
user stops unchanged; a falsy argument (None or the empty list) leaves the
attribute unset by this branch. -/
theorem heatmap_color_stops_prepends_transparent (cs : List (ℚ × String)) :
    (cs ≠ [] → HeatmapLayer_init_color_stops (some cs)
        = some ((1 / 100000, "rgba(0,0,0,0)") :: cs))
    ∧ HeatmapLayer_init_color_stops (some []) = none
    ∧ HeatmapLayer_init_color_stops none = none := by
  refine ⟨?_, rfl, rfl⟩
  intro hne
  simp [HeatmapLayer_init_color_stops, List.isEmpty_iff, hne]

theorem heatmap_color_stops_prepends_transparent_witness :
    HeatmapLayer_init_color_stops (some [((1 : ℚ), "red")])
      = some [((1 / 100000 : ℚ), "rgba(0,0,0,0)"), (1, "red")] :=
  (heatmap_color_stops_prepends_transparent [((1 : ℚ), "red")]).1 (by decide)

/-- C9: MapViz.__init__ raises TokenError on every access token starting with
'sk' and assigns no attribute; every other token (including the empty string
taken from the environment default when both the argument and the variable
are unset) is accepted and stored unchanged. -/
theorem mapviz_rejects_secret_tokens (env : Option String) (t : String) :
    (py_startswith t "sk" = true →
        MapViz_init_access_token env (some t) = Except.error TokenError.secretToken)
    ∧ (py_startswith t "sk" = false →
        MapViz_init_access_token env (some t) = Except.ok t)
    ∧ MapViz_init_access_token none none = Except.ok ""
    ∧ (∀ s : String, py_startswith s "sk" = false →
        MapViz_init_access_token (some s) none = Except.ok s) := by
  refine ⟨?_, ?_, rfl, ?_⟩
  · intro h
    simp [MapViz_init_access_token, h]
  · intro h
    simp [MapViz_init_access_token, h]
  · intro s h
    simp [MapViz_init_access_token, h]

theorem mapviz_rejects_secret_tokens_witness :
    MapViz_init_access_token none (some "sk.secret")
        = Except.error TokenError.secretToken
    ∧ MapViz_init_access_token none (some "pk.public") = Except.ok "pk.public"
    ∧ MapViz_init_access_token (some "pk.env") none = Except.ok "pk.env" := by
  refine ⟨?_, ?_, ?_⟩
  · exact (mapviz_rejects_secret_tokens none "sk.secret").1 (by decide)
  · exact (mapviz_rejects_secret_tokens none "pk.public").2.1 (by decide)
  · exact (mapviz_rejects_secret_tokens none "pk.public").2.2.2 "pk.env" (by decide)

/-- C10: after MapLayer construction, vector_source is True exactly when the
vector_url attribute exists and both vector_url and vector_layer_name are not
None; when True, 'layers/' in the template has been replaced by
'layers/vector_', and in every other case (missing vector_url attribute
included) vector_source is False and the template is untouched. -/
theorem maplayer_vector_source_template
    (url_attr : Option (Option String)) (lname : Option String) (tmpl : String) :
    ((MapLayer_init_vector url_attr lname tmpl).2 = true
        ↔ (∃ u, url_attr = some (some u)) ∧ lname ≠ none)
    ∧ ((MapLayer_init_vector url_attr lname tmpl).2 = true →
        (MapLayer_init_vector url_attr lname tmpl).1
          = tmpl.replace "layers/" "layers/vector_")
    ∧ ((MapLayer_init_vector url_attr lname tmpl).2 = false →
        (MapLayer_init_vector url_attr lname tmpl).1 = tmpl) := by
  match url_attr, lname with
  | none, _ =>
    simp [MapLayer_init_vector, check_vector_template]
  | some none, _ =>
    simp [MapLayer_init_vector, check_vector_template]
  | some (some u), none =>
    simp [MapLayer_init_vector, check_vector_template]
  | some (some u), some n =>
    refine ⟨⟨fun _ => ⟨⟨u, rfl⟩, by simp⟩, fun _ => rfl⟩, fun _ => rfl, fun h => ?_⟩
    exact absurd h (by simp [MapLayer_init_vector, check_vector_template])

theorem maplayer_vector_source_template_witness :
    (MapLayer_init_vector (some (some "mapbox://tiles")) (some "states")
        "layers/layer").2 = true
    ∧ (MapLayer_init_vector (some (some "mapbox://tiles")) (some "states")
        "layers/layer").1 = "layers/layer".replace "layers/" "layers/vector_"
    ∧ (MapLayer_init_vector none (some "states") "layers/layer").1
        = "layers/layer" := by
  refine ⟨?_, ?_, ?_⟩
  · exact (maplayer_vector_source_template (some (some "mapbox://tiles"))
      (some "states") "layers/layer").1.mpr ⟨⟨"mapbox://tiles", rfl⟩, by decide⟩
  · exact (maplayer_vector_source_template (some (some "mapbox://tiles"))
      (some "states") "layers/layer").2.1 rfl
  · exact (maplayer_vector_source_template none (some "states")
      "layers/layer").2.2 rfl
